import Mathlib

/-!
Shallow embedding of src/scripts/data_processor.py (Amazon sales analytics).

Numeric model: Python/pandas floats are modelled as rationals.  A division
whose denominator is zero produces NaN or an infinity in the source; both
are modelled as `none` of `Option`, and `round` maps over it (round of NaN
is NaN).  A mean over an empty series is NaN, hence `Option`.  `fillna`
replaces NaN only; where an infinity can reach a `fillna` (the monthly
growth column) the embedding keeps it as `none`.

Dates: a pandas Timestamp is modelled by its calendar date (year, month,
day).  The mandatory OrderDate column is modelled as an already-parsed
date, since a parse failure there aborts the run before any view executes;
the optional date columns keep their failure cases.
-/

namespace AmazonSales

/-- Calendar date modelling a pandas Timestamp. -/
structure Date where
  year : Int
  month : Nat
  day : Nat
deriving DecidableEq, Repr

/-- Lexicographic order on dates, as Timestamp comparison. -/
def Date.le (a b : Date) : Bool :=
  decide (a.year < b.year) ||
    (decide (a.year = b.year) &&
      (decide (a.month < b.month) ||
        (decide (a.month = b.month) && decide (a.day ≤ b.day))))

/-- `Series.min` over the OrderDate column; NaT (then a strftime failure)
on an empty series, hence `Option`. -/
def dateMin : List Date → Option Date
  | [] => none
  | h :: t => some (t.foldl (fun m d => if Date.le d m then d else m) h)

/-- `Series.max` over the OrderDate column. -/
def dateMax : List Date → Option Date
  | [] => none
  | h :: t => some (t.foldl (fun m d => if Date.le m d then d else m) h)

/-- strftime %b month abbreviation. -/
def monthAbbrev : Nat → String
  | 1 => "Jan" | 2 => "Feb" | 3 => "Mar" | 4 => "Apr" | 5 => "May" | 6 => "Jun"
  | 7 => "Jul" | 8 => "Aug" | 9 => "Sep" | 10 => "Oct" | 11 => "Nov" | 12 => "Dec"
  | _ => ""

/-- strftime %b %Y, as used for the KPI data_period bounds. -/
def fmtMonthYear (d : Date) : String :=
  monthAbbrev d.month ++ " " ++ toString d.year

/-- Two-digit zero padding for the month of a period key. -/
def pad2 (n : Nat) : String :=
  if n < 10 then "0" ++ toString n else toString n

/-- OrderDate.dt.to_period(M).astype(str): the YYYY-MM period key. -/
def yearMonthKey (d : Date) : String :=
  toString d.year ++ "-" ++ pad2 d.month

/-- Proleptic Gregorian day number (days from civil epoch shifted so that
its residue mod 7 gives the pandas weekday); models the calendar
arithmetic behind Timestamp.dayofweek. -/
def julianDayNumber (dt : Date) : Int :=
  let y : Int := dt.year
  let m : Int := dt.month
  let d : Int := dt.day
  let a : Int := Int.fdiv (m - 14) 12
  Int.fdiv (1461 * (y + 4800 + a)) 4
    + Int.fdiv (367 * (m - 2 - 12 * a)) 12
    - Int.fdiv (3 * (Int.fdiv (y + 4900 + a) 100)) 4
    + d - 32075

/-- OrderDate.dt.dayofweek: Monday = 0 through Sunday = 6. -/
def pandasDayOfWeek (dt : Date) : Nat :=
  (Int.emod (julianDayNumber dt - 2) 7).toNat

/-- strftime %A from the Monday-based weekday index. -/
def weekdayName : Nat → String
  | 0 => "Monday" | 1 => "Tuesday" | 2 => "Wednesday" | 3 => "Thursday"
  | 4 => "Friday" | 5 => "Saturday" | 6 => "Sunday" | _ => ""

/-- Round half to even to an integer, as Python round and pandas
Series.round on the decimal value. -/
def rhe (x : ℚ) : Int :=
  if x - ⌊x⌋ < 1/2 then ⌊x⌋
  else if 1/2 < x - ⌊x⌋ then ⌊x⌋ + 1
  else if Even ⌊x⌋ then ⌊x⌋ else ⌊x⌋ + 1

/-- round(x, 2). -/
def round2 (x : ℚ) : ℚ := (rhe (x * 100) : ℚ) / 100

/-- round(x, 1). -/
def round1 (x : ℚ) : ℚ := (rhe (x * 10) : ℚ) / 10

/-- Python int(): truncation toward zero. -/
def pyInt (q : ℚ) : Int := if 0 ≤ q then ⌊q⌋ else -⌊-q⌋

/-- Float division: denominator zero gives NaN or an infinity, modelled
as `none`. -/
def pdiv (x y : ℚ) : Option ℚ := if y = 0 then none else some (x / y)

/-- Series.mean: NaN on an empty series. -/
def qmean : List ℚ → Option ℚ
  | [] => none
  | h :: t => some ((h :: t).sum / ((h :: t).length : ℚ))

/-- Series.nunique: the number of distinct values. -/
def nunique (l : List String) : Nat := l.dedup.length

/-- DataFrame.groupby: the distinct keys in ascending key order, each with
the rows carrying it (groupby sorts group keys by default). -/
def groupsBy {α κ : Type} [DecidableEq κ] (le : κ → κ → Prop) [DecidableRel le]
    (key : α → κ) (xs : List α) : List (κ × List α) :=
  (List.insertionSort le ((xs.map key).dedup)).map
    (fun k => (k, xs.filter (fun x => key x = k)))

/-- Series.cumsum with the default skipna: NaN entries stay NaN and do not
feed the running total. -/
def cumsumSkip (acc : ℚ) : List (Option ℚ) → List (Option ℚ)
  | [] => []
  | none :: t => none :: cumsumSkip acc t
  | some q :: t => some (acc + q) :: cumsumSkip (acc + q) t

/-- The running totals of a fully defined column, for reasoning about
cumsumSkip on NaN-free input. -/
def runningSums (acc : ℚ) : List ℚ → List ℚ
  | [] => []
  | q :: t => (acc + q) :: runningSums (acc + q) t

/-- String comparison used for sorted group keys: the core string order,
stated on the character lists. -/
def strOrd (a b : String) : Prop := ¬ b.data < a.data

instance : DecidableRel strOrd := fun a b =>
  inferInstanceAs (Decidable (¬ b.data < a.data))

/-- Strict string order on the character lists. -/
def strLtOrd (a b : String) : Prop := a.data < b.data

instance : DecidableRel strLtOrd := fun a b =>
  inferInstanceAs (Decidable (a.data < b.data))

/-- The generic revenue-descending row order of
sort_values(revenue, ascending=False) and nlargest(n, revenue). -/
def revDescOrd {α : Type} (rev : α → ℚ) (a b : α) : Prop := rev b ≤ rev a

instance {α : Type} (rev : α → ℚ) : DecidableRel (revDescOrd rev) :=
  fun a b => inferInstanceAs (Decidable (rev b ≤ rev a))

/-!  ## The record model

A normalized record, the row shape after load_and_clean_data: original
columns (with the cleaned values) plus the derived calendar columns.
Columns the script never touches (Order Id, Buyer_Email, ProductName,
Channel, Order_Status, DiscountRate, Payment_Fees, the transit-days
column) are modelled at their used type.
-/

structure Record where
  orderId : String
  buyerEmail : String
  productName : String
  category : String
  brand : String
  region : String
  country : String
  paymentMethod : String
  courier : String
  channel : String
  orderStatus : String
  revenue : ℚ
  profit : ℚ
  unitsSold : ℚ
  unitPrice : ℚ
  shippingCost : ℚ
  taxAmount : ℚ
  discountAmount : ℚ
  refundAmount : ℚ
  discountRate : ℚ
  paymentFees : ℚ
  transitDays : ℚ
  primeMember : Bool
  lateDeliveries : String
  isLate : Bool
  orderDate : Date
  shippingDate : Option Date
  expectedDeliveryDate : Option Date
  year : Int
  month : Nat
  monthName : String
  dayOfWeek : Nat
  dayName : String
  yearMonth : String
deriving DecidableEq, Repr

/-- A raw categorical cell: missing (NaN) or a string. -/
inductive RawStr where
  | null
  | str (s : String)
deriving DecidableEq, Repr

/-- A raw numeric cell: missing, a number, or a value on which
pd.to_numeric(errors=coerce) fails and yields NaN. -/
inductive RawNum where
  | null
  | num (q : ℚ)
  | junk
deriving DecidableEq, Repr

/-- A raw Prime_Member cell: missing, a number, a string, or a boolean. -/
inductive RawBool where
  | null
  | num (q : ℚ)
  | str (s : String)
  | b (v : Bool)
deriving DecidableEq, Repr

/-- A raw optional date cell: missing, a date, or a value on which
pd.to_datetime(errors=coerce) fails and yields NaT. -/
inductive RawDate where
  | null
  | d (v : Date)
  | junk
deriving DecidableEq, Repr

/-- One raw row as read from the Excel source. -/
structure RawRecord where
  orderId : String
  buyerEmail : String
  productName : String
  category : RawStr
  brand : RawStr
  region : RawStr
  country : RawStr
  paymentMethod : RawStr
  courier : RawStr
  channel : String
  orderStatus : String
  revenue : RawNum
  profit : RawNum
  unitsSold : RawNum
  unitPrice : RawNum
  shippingCost : RawNum
  taxAmount : RawNum
  discountAmount : RawNum
  refundAmount : RawNum
  discountRate : ℚ
  paymentFees : ℚ
  transitDays : ℚ
  primeMember : RawBool
  lateDeliveries : RawStr
  orderDate : Date
  shippingDate : RawDate
  expectedDeliveryDate : RawDate
deriving DecidableEq, Repr

/-- Series.fillna(default) on a categorical column. -/
def fillStr (default : String) : RawStr → String
  | .null => default
  | .str s => s

/-- pd.to_numeric(errors=coerce).fillna(0) on a numeric column. -/
def toNum0 : RawNum → ℚ
  | .null => 0
  | .num q => q
  | .junk => 0

/-- pd.to_datetime(errors=coerce) on an optional date column: failures
and missing values become NaT, modelled as `none`. -/
def toDateOpt : RawDate → Option Date
  | .null => none
  | .d v => some v
  | .junk => none

/-- Prime_Member.fillna(0): the missing case becomes numeric 0. -/
def fillZero : RawBool → RawBool
  | .null => .num 0
  | v => v

/-- astype(bool): Python truthiness on the cell value. -/
def truthy : RawBool → Bool
  | .null => false
  | .num q => decide (q ≠ 0)
  | .str s => decide (s ≠ "")
  | .b v => v

/-- The Late Deliveries lambda: True iff str(x).lower() == yes. -/
def isYes (s : String) : Bool := s.toLower = "yes"

/-- load_and_clean_data on one row: fill categorical defaults, coerce
numerics with 0 default, coerce booleans, derive the calendar columns
from the order date. -/
def normalizeRecord (r : RawRecord) : Record :=
  let lateStr := fillStr "No" r.lateDeliveries
  { orderId := r.orderId
    buyerEmail := r.buyerEmail
    productName := r.productName
    category := fillStr "Unknown" r.category
    brand := fillStr "Unknown Brand" r.brand
    region := fillStr "Unknown" r.region
    country := fillStr "Unknown" r.country
    paymentMethod := fillStr "Unknown" r.paymentMethod
    courier := fillStr "Unknown" r.courier
    channel := r.channel
    orderStatus := r.orderStatus
    revenue := toNum0 r.revenue
    profit := toNum0 r.profit
    unitsSold := toNum0 r.unitsSold
    unitPrice := toNum0 r.unitPrice
    shippingCost := toNum0 r.shippingCost
    taxAmount := toNum0 r.taxAmount
    discountAmount := toNum0 r.discountAmount
    refundAmount := toNum0 r.refundAmount
    discountRate := r.discountRate
    paymentFees := r.paymentFees
    transitDays := r.transitDays
    primeMember := truthy (fillZero r.primeMember)
    lateDeliveries := lateStr
    isLate := isYes lateStr
    orderDate := r.orderDate
    shippingDate := toDateOpt r.shippingDate
    expectedDeliveryDate := toDateOpt r.expectedDeliveryDate
    year := r.orderDate.year
    month := r.orderDate.month
    monthName := monthAbbrev r.orderDate.month
    dayOfWeek := pandasDayOfWeek r.orderDate
    dayName := weekdayName (pandasDayOfWeek r.orderDate)
    yearMonth := yearMonthKey r.orderDate }

/-- load_and_clean_data over the whole table. -/
def loadAndClean (rs : List RawRecord) : List Record :=
  rs.map normalizeRecord

/-- View a normalized record as a raw row again (each cleaned column
embedded back at its raw cell type), for renormalization. -/
def recordToRaw (r : Record) : RawRecord :=
  { orderId := r.orderId
    buyerEmail := r.buyerEmail
    productName := r.productName
    category := .str r.category
    brand := .str r.brand
    region := .str r.region
    country := .str r.country
    paymentMethod := .str r.paymentMethod
    courier := .str r.courier
    channel := r.channel
    orderStatus := r.orderStatus
    revenue := .num r.revenue
    profit := .num r.profit
    unitsSold := .num r.unitsSold
    unitPrice := .num r.unitPrice
    shippingCost := .num r.shippingCost
    taxAmount := .num r.taxAmount
    discountAmount := .num r.discountAmount
    refundAmount := .num r.refundAmount
    discountRate := r.discountRate
    paymentFees := r.paymentFees
    transitDays := r.transitDays
    primeMember := .b r.primeMember
    lateDeliveries := .str r.lateDeliveries
    orderDate := r.orderDate
    shippingDate := (r.shippingDate).elim RawDate.null RawDate.d
    expectedDeliveryDate := (r.expectedDeliveryDate).elim RawDate.null RawDate.d }

/-!  ## Aggregation views -/

/-- The completed-order filter each view applies locally:
df[df[Order_Status] == Completed]. -/
def completedOf (df : List Record) : List Record :=
  df.filter (fun r => r.orderStatus = "Completed")

/-- Sum of a numeric column over a row list. -/
def sumBy (f : Record → ℚ) (rs : List Record) : ℚ := (rs.map f).sum

/-- Mean of a numeric column over a row list (NaN when empty). -/
def meanBy (f : Record → ℚ) (rs : List Record) : Option ℚ := qmean (rs.map f)

/-- Mean of a boolean column (pandas treats the bools as 0/1). -/
def meanBool (f : Record → Bool) (rs : List Record) : Option ℚ :=
  qmean (rs.map (fun r => if f r then (1 : ℚ) else 0))

/-- The KPI summary mapping produced by calculate_kpis. -/
structure KPIs where
  total_revenue : ℚ
  total_profit : ℚ
  total_orders : Nat
  total_units_sold : Int
  avg_order_value : Option ℚ
  profit_margin : Option ℚ
  unique_customers : Nat
  prime_member_pct : Option ℚ
  late_delivery_pct : Option ℚ
  unique_products : Nat
  unique_countries : Nat
  avg_discount_rate : Option ℚ
  data_period : String
deriving DecidableEq, Repr

/-- calculate_kpis.  data_period formats df[OrderDate].min() and .max()
over the WHOLE table; on an empty table those are NaT and strftime
raises, so no KPI mapping is produced (`none`). -/
def calculate_kpis (df : List Record) : Option KPIs :=
  let c := completedOf df
  match dateMin (df.map (·.orderDate)), dateMax (df.map (·.orderDate)) with
  | some dmin, some dmax =>
      some
        { total_revenue := round2 (sumBy (·.revenue) c)
          total_profit := round2 (sumBy (·.profit) c)
          total_orders := nunique (c.map (·.orderId))
          total_units_sold := pyInt (sumBy (·.unitsSold) c)
          avg_order_value := (meanBy (·.revenue) c).map round2
          profit_margin :=
            (pdiv (sumBy (·.profit) c) (sumBy (·.revenue) c)).map
              (fun q => round2 (q * 100))
          unique_customers := nunique (c.map (·.buyerEmail))
          prime_member_pct := (meanBool (·.primeMember) c).map (fun q => round2 (q * 100))
          late_delivery_pct := (meanBool (·.isLate) c).map (fun q => round2 (q * 100))
          unique_products := nunique (c.map (·.productName))
          unique_countries := nunique (c.map (·.country))
          avg_discount_rate := (meanBy (·.discountRate) c).map (fun q => round2 (q * 100))
          data_period := fmtMonthYear dmin ++ " - " ++ fmtMonthYear dmax }
  | _, _ => none

/-- The grouped aggregates of calculate_monthly_trends before the derived
columns, with revenue and profit already rounded. -/
structure MBase where
  month : String
  revenue : ℚ
  profit : ℚ
  orders : Nat
  units : ℚ
deriving DecidableEq, Repr

/-- groupby(YearMonth).agg of calculate_monthly_trends, keys ascending,
revenue and profit rounded to 2 decimals. -/
def monthlyBase (df : List Record) : List MBase :=
  (groupsBy strOrd (·.yearMonth) (completedOf df)).map
    (fun g =>
      { month := g.1
        revenue := round2 (sumBy (·.revenue) g.2)
        profit := round2 (sumBy (·.profit) g.2)
        orders := nunique (g.2.map (·.orderId))
        units := sumBy (·.unitsSold) g.2 })

/-- revenue.pct_change() * 100, rounded, then fillna(0): the first row is
NaN filled to 0; a zero previous revenue gives NaN (filled to 0) when the
current revenue is also zero, otherwise an infinity which fillna keeps
(`none`). -/
def monthlyGrowth (base : List MBase) (i : Nat) : Option ℚ :=
  if i = 0 then some 0
  else
    match base.get? (i - 1), base.get? i with
    | some p, some cur =>
        if p.revenue = 0 then (if cur.revenue = 0 then some 0 else none)
        else some (round2 ((cur.revenue - p.revenue) / p.revenue * 100))
    | _, _ => some 0

/-- revenue.rolling(window=3).mean().round(2): NaN on the first two rows. -/
def monthlyMa3Roll (base : List MBase) (i : Nat) : Option ℚ :=
  if 2 ≤ i then
    (base.get? (i - 2)).bind fun a =>
      (base.get? (i - 1)).bind fun b =>
        (base.get? i).map fun cur =>
          round2 ((a.revenue + b.revenue + cur.revenue) / 3)
  else none

/-- One row of the monthly trend view. -/
structure MonthlyRow where
  month : String
  revenue : ℚ
  profit : ℚ
  orders : Nat
  units : ℚ
  revenue_growth : Option ℚ
  revenue_ma3 : ℚ
deriving DecidableEq, Repr

/-- calculate_monthly_trends: grouped aggregates plus the growth column
and the moving average fillna-ed with the revenue column. -/
def calculate_monthly_trends (df : List Record) : List MonthlyRow :=
  let base := monthlyBase df
  (List.range base.length).map fun i =>
    let b := (base.get? i).getD ⟨"", 0, 0, 0, 0⟩
    { month := b.month
      revenue := b.revenue
      profit := b.profit
      orders := b.orders
      units := b.units
      revenue_growth := monthlyGrowth base i
      revenue_ma3 := (monthlyMa3Roll base i).getD b.revenue }

/-- Lexicographic comparison on a two-string group key. -/
def pairOrd (a b : String × String) : Prop :=
  strLtOrd a.1 b.1 ∨ (a.1 = b.1 ∧ strOrd a.2 b.2)

instance : DecidableRel pairOrd := fun a b =>
  inferInstanceAs (Decidable (strLtOrd a.1 b.1 ∨ (a.1 = b.1 ∧ strOrd a.2 b.2)))

/-- Lexicographic comparison on a three-string group key. -/
def tripleOrd (a b : String × String × String) : Prop :=
  strLtOrd a.1 b.1 ∨ (a.1 = b.1 ∧ pairOrd a.2 b.2)

instance : DecidableRel tripleOrd := fun a b =>
  inferInstanceAs (Decidable (strLtOrd a.1 b.1 ∨ (a.1 = b.1 ∧ pairOrd a.2 b.2)))

/-- Comparison on the (day index, day name) group key. -/
def dayOrd (a b : Nat × String) : Prop :=
  a.1 < b.1 ∨ (a.1 = b.1 ∧ strOrd a.2 b.2)

instance : DecidableRel dayOrd := fun a b =>
  inferInstanceAs (Decidable (a.1 < b.1 ∨ (a.1 = b.1 ∧ strOrd a.2 b.2)))

/-- Comparison on the boolean Prime_Member group key (False before True). -/
def boolOrd (a b : Bool) : Prop := a ≤ b

instance : DecidableRel boolOrd := fun a b => by unfold boolOrd; infer_instance

/-- The grouped aggregates of calculate_category_performance, with
revenue and profit already rounded. -/
structure CBase where
  category : String
  revenue : ℚ
  profit : ℚ
  orders : Nat
  units : ℚ
deriving DecidableEq, Repr

/-- groupby(Category).agg of calculate_category_performance, revenue and
profit rounded to 2 decimals. -/
def categoryBase (df : List Record) : List CBase :=
  (groupsBy strOrd (·.category) (completedOf df)).map
    (fun g =>
      { category := g.1
        revenue := round2 (sumBy (·.revenue) g.2)
        profit := round2 (sumBy (·.profit) g.2)
        orders := nunique (g.2.map (·.orderId))
        units := sumBy (·.unitsSold) g.2 })

/-- category[revenue].sum(): the grand total of the rounded group
revenues, the denominator of revenue_share. -/
def categoryTotal (df : List Record) : ℚ :=
  ((categoryBase df).map (·.revenue)).sum

/-- (category[revenue] / category[revenue].sum() * 100).round(2). -/
def categoryShare (df : List Record) (b : CBase) : Option ℚ :=
  (pdiv b.revenue (categoryTotal df)).map (fun q => round2 (q * 100))

/-- sort_values(revenue, ascending=False) on the category aggregates. -/
def categorySorted (df : List Record) : List CBase :=
  List.insertionSort (revDescOrd (·.revenue)) (categoryBase df)

/-- The Pareto lambda: Top Performer if x <= 80 else Supporting; a NaN
cumulative share compares False and falls to Supporting. -/
def paretoClass : Option ℚ → String
  | some x => if x ≤ 80 then "Top Performer" else "Supporting"
  | none => "Supporting"

/-- One row of the category performance view. -/
structure CategoryRow where
  category : String
  revenue : ℚ
  profit : ℚ
  orders : Nat
  units : ℚ
  profit_margin : Option ℚ
  revenue_share : Option ℚ
  cumulative_share : Option ℚ
  pareto_class : String
deriving DecidableEq, Repr

/-- calculate_category_performance: grouped aggregates, margins and
shares from the rounded columns, revenue-descending sort, cumulative
share, Pareto class. -/
def calculate_category_performance (df : List Record) : List CategoryRow :=
  let s := categorySorted df
  let cums := cumsumSkip 0 (s.map (categoryShare df))
  (s.zip cums).map fun p =>
    { category := p.1.category
      revenue := p.1.revenue
      profit := p.1.profit
      orders := p.1.orders
      units := p.1.units
      profit_margin := (pdiv p.1.profit p.1.revenue).map (fun q => round2 (q * 100))
      revenue_share := categoryShare df p.1
      cumulative_share := p.2
      pareto_class := paretoClass p.2 }

/-- One row of the regional performance view. -/
structure RegionalRow where
  region : String
  country : String
  revenue : ℚ
  profit : ℚ
  orders : Nat
  customers : Nat
  avg_order_value : Option ℚ
  revenue_per_customer : Option ℚ
deriving DecidableEq, Repr

/-- calculate_regional_performance: groupby(Region, Country) sums and
distinct counts with the two per-group ratios. -/
def calculate_regional_performance (df : List Record) : List RegionalRow :=
  (groupsBy pairOrd (fun r => (r.region, r.country)) (completedOf df)).map
    fun g =>
      let revenue := round2 (sumBy (·.revenue) g.2)
      let orders := nunique (g.2.map (·.orderId))
      let customers := nunique (g.2.map (·.buyerEmail))
      { region := g.1.1
        country := g.1.2
        revenue := revenue
        profit := round2 (sumBy (·.profit) g.2)
        orders := orders
        customers := customers
        avg_order_value := (pdiv revenue (orders : ℚ)).map round2
        revenue_per_customer := (pdiv revenue (customers : ℚ)).map round2 }

/-- One row of the channel performance view. -/
structure ChannelRow where
  channel : String
  revenue : ℚ
  profit : ℚ
  orders : Nat
  units : ℚ
  market_share : Option ℚ
deriving DecidableEq, Repr

/-- The channel aggregates before the final revenue-descending sort. -/
def channelBase (df : List Record) : List ChannelRow :=
  let base :=
    (groupsBy strOrd (·.channel) (completedOf df)).map
      (fun g =>
        (g.1, round2 (sumBy (·.revenue) g.2), round2 (sumBy (·.profit) g.2),
          nunique (g.2.map (·.orderId)), sumBy (·.unitsSold) g.2))
  let total := (base.map (·.2.1)).sum
  base.map fun b =>
    { channel := b.1
      revenue := b.2.1
      profit := b.2.2.1
      orders := b.2.2.2.1
      units := b.2.2.2.2
      market_share := (pdiv b.2.1 total).map (fun q => round2 (q * 100)) }

/-- calculate_channel_performance: aggregates with market share, sorted
by revenue descending. -/
def calculate_channel_performance (df : List Record) : List ChannelRow :=
  List.insertionSort (revDescOrd (·.revenue)) (channelBase df)

/-- One row of the payment analysis view. -/
structure PaymentRow where
  payment_method : String
  revenue : ℚ
  avg_order_value : Option ℚ
  orders : Nat
  fees : ℚ
  share : Option ℚ
deriving DecidableEq, Repr

/-- The payment aggregates before the final revenue-descending sort. -/
def paymentBase (df : List Record) : List PaymentRow :=
  let base :=
    (groupsBy strOrd (·.paymentMethod) (completedOf df)).map
      (fun g =>
        (g.1, round2 (sumBy (·.revenue) g.2),
          (meanBy (·.revenue) g.2).map round2,
          nunique (g.2.map (·.orderId)), round2 (sumBy (·.paymentFees) g.2)))
  let total := (base.map (·.2.1)).sum
  base.map fun b =>
    { payment_method := b.1
      revenue := b.2.1
      avg_order_value := b.2.2.1
      orders := b.2.2.2.1
      fees := b.2.2.2.2
      share := (pdiv b.2.1 total).map (fun q => round2 (q * 100)) }

/-- calculate_payment_analysis: aggregates with share, sorted by revenue
descending. -/
def calculate_payment_analysis (df : List Record) : List PaymentRow :=
  List.insertionSort (revDescOrd (·.revenue)) (paymentBase df)

/-- One row of the day-of-week view. -/
structure DayRow where
  day_num : Nat
  day_name : String
  revenue : ℚ
  orders : Nat
  avg_revenue : Option ℚ
  index : Option ℚ
deriving DecidableEq, Repr

/-- sort_values(day_num): ascending day index order. -/
def dayNumOrd (a b : DayRow) : Prop := a.day_num ≤ b.day_num

instance : DecidableRel dayNumOrd := fun a b =>
  inferInstanceAs (Decidable (a.day_num ≤ b.day_num))

/-- The day-of-week aggregates with the per-row average revenue, before
the cross-day index. -/
def dayBase (df : List Record) : List (Nat × String × ℚ × Nat) :=
  (groupsBy dayOrd (fun r => (r.dayOfWeek, r.dayName)) (completedOf df)).map
    fun g =>
      (g.1.1, g.1.2, round2 (sumBy (·.revenue) g.2), nunique (g.2.map (·.orderId)))

/-- daily[revenue].mean(): the scalar mean of the rounded day revenues. -/
def dayAvgRevenue (df : List Record) : Option ℚ :=
  qmean ((dayBase df).map (·.2.2.1))

/-- calculate_day_of_week_analysis: day aggregates, revenue-per-order,
index against the cross-day mean, sorted ascending by day index. -/
def calculate_day_of_week_analysis (df : List Record) : List DayRow :=
  let rows :=
    (dayBase df).map fun b =>
      { day_num := b.1
        day_name := b.2.1
        revenue := b.2.2.1
        orders := b.2.2.2
        avg_revenue := (pdiv b.2.2.1 (b.2.2.2 : ℚ)).map round2
        index :=
          (dayAvgRevenue df).bind fun a =>
            (pdiv b.2.2.1 a).map (fun q => round2 (q * 100)) : DayRow }
  List.insertionSort dayNumOrd rows

/-- One row of the prime member analysis view. -/
structure PrimeRow where
  is_prime : String
  revenue : ℚ
  avg_order_value : Option ℚ
  profit : ℚ
  orders : Nat
  customers : Nat
  units : ℚ
  orders_per_customer : Option ℚ
  revenue_per_customer : Option ℚ
deriving DecidableEq, Repr

/-- calculate_prime_analysis: groupby(Prime_Member) with the label
mapping and per-customer ratios. -/
def calculate_prime_analysis (df : List Record) : List PrimeRow :=
  (groupsBy boolOrd (·.primeMember) (completedOf df)).map fun g =>
    let revenue := round2 (sumBy (·.revenue) g.2)
    let orders := nunique (g.2.map (·.orderId))
    let customers := nunique (g.2.map (·.buyerEmail))
    { is_prime := if g.1 then "Prime" else "Non-Prime"
      revenue := revenue
      avg_order_value := (meanBy (·.revenue) g.2).map round2
      profit := round2 (sumBy (·.profit) g.2)
      orders := orders
      customers := customers
      units := sumBy (·.unitsSold) g.2
      orders_per_customer := (pdiv (orders : ℚ) (customers : ℚ)).map round2
      revenue_per_customer := (pdiv revenue (customers : ℚ)).map round2 }

/-- One row of the shipping performance view. -/
structure ShippingRow where
  courier : String
  shipments : Nat
  late_count : ℚ
  late_rate : Option ℚ
  avg_cost : Option ℚ
  avg_days : Option ℚ
  on_time_rate : Option ℚ
deriving DecidableEq, Repr

/-- sort_values(shipments, ascending=False): shipment count descending. -/
def shipDescOrd (a b : ShippingRow) : Prop := b.shipments ≤ a.shipments

instance : DecidableRel shipDescOrd := fun a b =>
  inferInstanceAs (Decidable (b.shipments ≤ a.shipments))

instance : IsTotal ShippingRow shipDescOrd :=
  ⟨fun a b => le_total b.shipments a.shipments⟩

instance : IsTrans ShippingRow shipDescOrd :=
  ⟨fun _ _ _ hab hbc => le_trans hbc hab⟩

/-- The shipping aggregates before the final sort and head(10). -/
def shippingBase (df : List Record) : List ShippingRow :=
  (groupsBy strOrd (·.courier) (completedOf df)).map fun g =>
    let lateRate := (meanBool (·.isLate) g.2).map (fun q => round2 (q * 100))
    { courier := g.1
      shipments := nunique (g.2.map (·.orderId))
      late_count := (g.2.map (fun r => if r.isLate then (1 : ℚ) else 0)).sum
      late_rate := lateRate
      avg_cost := (meanBy (·.shippingCost) g.2).map round2
      avg_days := (meanBy (·.transitDays) g.2).map round1
      on_time_rate := lateRate.map (fun x => round2 (100 - x)) }

/-- calculate_shipping_performance: courier aggregates sorted by shipment
count descending, first 10 rows. -/
def calculate_shipping_performance (df : List Record) : List ShippingRow :=
  (List.insertionSort shipDescOrd (shippingBase df)).take 10

/-- One row of the top products view. -/
structure ProductRow where
  product : String
  category : String
  brand : String
  revenue : ℚ
  profit : ℚ
  units : ℚ
  orders : Nat
  profit_margin : Option ℚ
deriving DecidableEq, Repr

/-- calculate_top_products: product aggregates, margins from the rounded
columns, nlargest(20, revenue). -/
def calculate_top_products (df : List Record) : List ProductRow :=
  let base :=
    (groupsBy tripleOrd (fun r => (r.productName, r.category, r.brand))
        (completedOf df)).map
      fun g =>
        let revenue := round2 (sumBy (·.revenue) g.2)
        let profit := round2 (sumBy (·.profit) g.2)
        { product := g.1.1
          category := g.1.2.1
          brand := g.1.2.2
          revenue := revenue
          profit := profit
          units := sumBy (·.unitsSold) g.2
          orders := nunique (g.2.map (·.orderId))
          profit_margin := (pdiv profit revenue).map (fun q => round2 (q * 100)) : ProductRow }
  (List.insertionSort (revDescOrd (·.revenue)) base).take 20

/-- One row of the top brands view. -/
structure BrandRow where
  brand : String
  revenue : ℚ
  profit : ℚ
  units : ℚ
  orders : Nat
  market_share : Option ℚ
deriving DecidableEq, Repr

/-- calculate_top_brands: brand aggregates with market share of the full
brand total, nlargest(15, revenue). -/
def calculate_top_brands (df : List Record) : List BrandRow :=
  let base :=
    (groupsBy strOrd (·.brand) (completedOf df)).map
      fun g =>
        (g.1, round2 (sumBy (·.revenue) g.2), round2 (sumBy (·.profit) g.2),
          sumBy (·.unitsSold) g.2, nunique (g.2.map (·.orderId)))
  let total := (base.map (·.2.1)).sum
  let rows : List BrandRow :=
    base.map fun b =>
      { brand := b.1
        revenue := b.2.1
        profit := b.2.2.1
        units := b.2.2.2.1
        orders := b.2.2.2.2
        market_share := (pdiv b.2.1 total).map (fun q => round2 (q * 100)) }
  (List.insertionSort (revDescOrd (·.revenue)) rows).take 15

/-- One row of the order status distribution view. -/
structure StatusRow where
  status : String
  orders : Nat
  revenue : ℚ
  refunds : ℚ
  order_share : Option ℚ
deriving DecidableEq, Repr

/-- calculate_order_status_distribution: groupby(Order_Status) over ALL
records (no completed filter), with each status's share of distinct
orders. -/
def calculate_order_status_distribution (df : List Record) : List StatusRow :=
  let base :=
    (groupsBy strOrd (·.orderStatus) df).map
      fun g =>
        (g.1, nunique (g.2.map (·.orderId)), round2 (sumBy (·.revenue) g.2),
          round2 (sumBy (·.refundAmount) g.2))
  let total := (base.map (·.2.1)).sum
  base.map fun b =>
    { status := b.1
      orders := b.2.1
      revenue := b.2.2.1
      refunds := b.2.2.2
      order_share := (pdiv (b.2.1 : ℚ) (total : ℚ)).map (fun q => round2 (q * 100)) }

/-!  ## Document assembly -/

/-- The value stored under one key of the dashboard document. -/
inductive ViewVal where
  | str (s : String)
  | kpi (k : KPIs)
  | monthly (l : List MonthlyRow)
  | cat (l : List CategoryRow)
  | regional (l : List RegionalRow)
  | channel (l : List ChannelRow)
  | payment (l : List PaymentRow)
  | day (l : List DayRow)
  | prime (l : List PrimeRow)
  | shipping (l : List ShippingRow)
  | products (l : List ProductRow)
  | brands (l : List BrandRow)
  | status (l : List StatusRow)
deriving DecidableEq, Repr

/-- The dashboard_data mapping of main, keyed as in the source; `now` is
the generation timestamp.  A raising KPI computation (empty table)
aborts the run before the document exists. -/
def dashboardData (now : String) (df : List Record) : Option (List (String × ViewVal)) :=
  (calculate_kpis df).map fun k =>
    [("generated_at", .str now),
     ("kpis", .kpi k),
     ("monthly_trends", .monthly (calculate_monthly_trends df)),
     ("category_performance", .cat (calculate_category_performance df)),
     ("regional_performance", .regional (calculate_regional_performance df)),
     ("channel_performance", .channel (calculate_channel_performance df)),
     ("payment_analysis", .payment (calculate_payment_analysis df)),
     ("day_of_week", .day (calculate_day_of_week_analysis df)),
     ("prime_analysis", .prime (calculate_prime_analysis df)),
     ("shipping_performance", .shipping (calculate_shipping_performance df)),
     ("top_products", .products (calculate_top_products df)),
     ("top_brands", .brands (calculate_top_brands df)),
     ("order_status", .status (calculate_order_status_distribution df))]

/-!  ## Concrete sample records for scenarios and counterexamples -/

/-- A fully populated completed record: order A1, revenue 100, profit 20,
region US, country US. -/
def baseRec : Record :=
  { orderId := "A1", buyerEmail := "a@x.com", productName := "Widget",
    category := "Gadgets", brand := "Acme", region := "US", country := "US",
    paymentMethod := "Card", courier := "Ship", channel := "Online",
    orderStatus := "Completed", revenue := 100, profit := 20, unitsSold := 1,
    unitPrice := 100, shippingCost := 5, taxAmount := 0, discountAmount := 0,
    refundAmount := 0, discountRate := 0, paymentFees := 0, transitDays := 2,
    primeMember := true, lateDeliveries := "No", isLate := false,
    orderDate := ⟨2024, 1, 15⟩, shippingDate := none,
    expectedDeliveryDate := none, year := 2024, month := 1,
    monthName := "Jan", dayOfWeek := 0, dayName := "Monday",
    yearMonth := "2024-01" }

/-- Move a record to another order date, rederiving the calendar fields. -/
def onDate (r : Record) (d : Date) : Record :=
  { r with
    orderDate := d
    year := d.year
    month := d.month
    monthName := monthAbbrev d.month
    dayOfWeek := pandasDayOfWeek d
    dayName := weekdayName (pandasDayOfWeek d)
    yearMonth := yearMonthKey d }

/-- Order A2: revenue 50, profit 10, status Cancelled. -/
def recA2 : Record :=
  { baseRec with
    orderId := "A2"
    orderStatus := "Cancelled"
    revenue := 50
    profit := 10 }

/-- The two-record scenario of the spec: A1 completed, A2 cancelled. -/
def dfScenario : List Record := [baseRec, recA2]

/-- A cancelled record dated in a later month than any completed one. -/
def recCancelledLater : Record := onDate recA2 ⟨2025, 3, 1⟩

/-- One completed record only. -/
def dfOnlyA1 : List Record := [baseRec]

/-- The completed record plus a later cancelled record: same completed
subset as dfOnlyA1. -/
def dfWithLateCancelled : List Record := [baseRec, recCancelledLater]

/-- A completed record whose profit rounds to zero at 2 decimals while
the unrounded margin does not. -/
def dfTinyProfit : List Record := [{ baseRec with revenue := 10, profit := 1/250 }]

/-- A single record with no completed order. -/
def recCancelOnly : Record := { baseRec with orderStatus := "Cancelled" }

/-- A completed record with zero revenue and profit. -/
def recZeroRev : Record := { baseRec with revenue := 0, profit := 0 }

/-- Two completed categories, one with negative revenue. -/
def dfNegCategory : List Record :=
  [{ baseRec with category := "A", revenue := 10 },
   { baseRec with orderId := "A2", category := "B", revenue := -5, profit := 0 }]

/-- Two completed categories with positive revenues 60 and 40. -/
def dfTwoCategories : List Record :=
  [{ baseRec with category := "A", revenue := 60 },
   { baseRec with orderId := "A2", category := "B", revenue := 40 }]

/-- The KPI profit margin as the spec words it (for comparison with the
code): rounded total profit divided by rounded total revenue, times 100,
rounded to 2 decimals. -/
def kpiProfitMarginSpec (df : List Record) : Option ℚ :=
  (pdiv (round2 (sumBy (·.profit) (completedOf df)))
      (round2 (sumBy (·.revenue) (completedOf df)))).map
    (fun q => round2 (q * 100))

/-- The KPI mapping the pipeline produces on the single record baseRec. -/
def kpiBaseRec : KPIs :=
  ⟨100, 20, 1, 1, some 100, some 20, 1, some 100, some 0, 1, 1, some 0,
    "Jan 2024 - Jan 2024"⟩

/-- The KPI mapping on the single zero-revenue completed record. -/
def kpiZeroRev : KPIs :=
  ⟨0, 0, 1, 1, some 0, none, 1, some 100, some 0, 1, 1, some 0,
    "Jan 2024 - Jan 2024"⟩

/-- The category row on the single zero-revenue completed record. -/
def catRowZero : CategoryRow :=
  ⟨"Gadgets", 0, 0, 1, 1, none, none, none, "Supporting"⟩

/-- The day-of-week row on the single zero-revenue completed record. -/
def dayRowZero : DayRow := ⟨0, "Monday", 0, 1, some 0, none⟩

/-!  ## General lemmas about the embedding -/

theorem renormalizeRecord_eq (r : RawRecord) :
    normalizeRecord (recordToRaw (normalizeRecord r)) = normalizeRecord r := by
  cases h1 : r.shippingDate <;> cases h2 : r.expectedDeliveryDate <;>
    simp [normalizeRecord, recordToRaw, fillStr, toNum0, toDateOpt, fillZero,
      truthy, isYes, h1, h2, Option.elim]

section ConcreteEvaluation

attribute [local semireducible] Rat.add Rat.mul Rat.inv Rat.sub

/-!  ## C4 -/

/-- C4: on the two-record scenario (A1 completed with revenue 100 and
profit 20, A2 cancelled with revenue 50), the KPI total_revenue is 100
and the order-status distribution has exactly the two rows Completed
(revenue 100) and Cancelled (revenue 50), each with order_share 50. -/
theorem scenario_two_records_kpi_and_status :
    (calculate_kpis dfScenario).map (·.total_revenue) = some 100 ∧
    calculate_order_status_distribution dfScenario =
      [⟨"Cancelled", 1, 50, 0, some 50⟩, ⟨"Completed", 1, 100, 0, some 50⟩] := by
  decide

end ConcreteEvaluation

/-!  ## C10 -/

/-- C10: the normalizer sets prime_member to the boolean coercion of the
raw value after replacing a missing value by 0, so null, 0, False and the
empty string normalize to False while every other value (including
strings such as "No") normalizes to True. -/
theorem prime_member_truthiness (r : RawRecord) :
    (normalizeRecord r).primeMember = truthy (fillZero r.primeMember) ∧
    ((normalizeRecord r).primeMember = false ↔
      r.primeMember = RawBool.null ∨ r.primeMember = RawBool.num 0 ∨
      r.primeMember = RawBool.b false ∨ r.primeMember = RawBool.str "") := by
  refine ⟨rfl, ?_⟩
  cases h : r.primeMember <;>
    simp [normalizeRecord, fillZero, truthy, h]

/-!  ## C6 -/

/-- C6: the normalizer is idempotent: renormalizing an already-normalized
record set (each cleaned row read back as a raw row) returns the same
record set, field for field. -/
theorem normalizer_idempotent (rs : List RawRecord) :
    loadAndClean ((loadAndClean rs).map recordToRaw) = loadAndClean rs := by
  simp only [loadAndClean, List.map_map]
  induction rs with
  | nil => rfl
  | cons h t ih =>
      simp only [List.map_cons, Function.comp_apply, List.cons.injEq] at *
      exact ⟨renormalizeRecord_eq h, ih⟩

/-!  ## C8 -/

/-- C8: the shipping performance view has at most 10 rows and is sorted
by distinct shipment count in descending order. -/
theorem shipping_top10_sorted (df : List Record) :
    (calculate_shipping_performance df).length ≤ 10 ∧
    (calculate_shipping_performance df).Pairwise
      (fun a b => b.shipments ≤ a.shipments) := by
  constructor
  · simp [calculate_shipping_performance]
  · have hs : List.Sorted shipDescOrd
        (List.insertionSort shipDescOrd (shippingBase df)) :=
      List.sorted_insertionSort shipDescOrd (shippingBase df)
    exact List.Pairwise.sublist (List.take_sublist 10 _) hs


theorem groupsBy_eq_nil_iff {α κ : Type} [DecidableEq κ] (le : κ → κ → Prop)
    [DecidableRel le] (key : α → κ) (xs : List α) :
    groupsBy le key xs = [] ↔ xs = [] := by
  constructor
  · intro hgl
    have h1 : (List.insertionSort le ((xs.map key).dedup)).length = 0 := by
      simpa [groupsBy] using congrArg List.length hgl
    rw [List.length_insertionSort] at h1
    have h2 : (xs.map key).dedup = [] := List.length_eq_zero.mp h1
    have h3 : xs.map key = [] := (List.dedup_eq_nil _).mp h2
    exact List.map_eq_nil_iff.mp h3
  · rintro rfl; rfl

/-!  ## C5 -/

/-- C5: whenever there is at least one completed record, the monthly
trend view is nonempty, its first row has revenue_growth 0, and each of
the first two rows has revenue_ma3 equal to that row's own rounded
revenue. -/
theorem monthly_first_rows (df : List Record) (h : completedOf df ≠ []) :
    calculate_monthly_trends df ≠ [] ∧
    (∀ r, (calculate_monthly_trends df)[0]? = some r →
      r.revenue_growth = some 0 ∧ r.revenue_ma3 = r.revenue) ∧
    (∀ r, (calculate_monthly_trends df)[1]? = some r → r.revenue_ma3 = r.revenue) := by
  have hb : monthlyBase df ≠ [] := by
    intro hnil
    have h4 : groupsBy strOrd (fun r => r.yearMonth) (completedOf df) = [] :=
      List.map_eq_nil_iff.mp hnil
    exact h ((groupsBy_eq_nil_iff _ _ _).mp h4)
  refine ⟨?_, ?_, ?_⟩
  · simp only [calculate_monthly_trends]
    simp [List.map_eq_nil_iff, List.range_eq_nil, List.length_eq_zero, hb]
  · intro r hr
    simp only [calculate_monthly_trends, List.getElem?_map] at hr
    have h0 : 0 < (monthlyBase df).length := List.length_pos.mpr hb
    rw [List.getElem?_range h0] at hr
    rw [Option.map_some'] at hr
    rw [Option.some.injEq] at hr
    subst hr
    constructor
    · simp [monthlyGrowth]
    · simp [monthlyMa3Roll]
  · intro r hr
    simp only [calculate_monthly_trends, List.getElem?_map] at hr
    cases hx : (List.range (monthlyBase df).length)[1]? with
    | none => rw [hx] at hr; simp at hr
    | some i =>
        have hi : i = 1 := by
          have h1 := List.getElem?_eq_some.mp hx
          obtain ⟨hlt, hv⟩ := h1
          simpa [List.getElem_range] using hv.symm
        rw [hx, hi] at hr
        rw [Option.map_some'] at hr
        rw [Option.some.injEq] at hr
        subst hr
        simp [monthlyMa3Roll]

/-- C5 witness: the property instantiated on a concrete one-record input. -/
theorem monthly_first_rows_witness :
    completedOf [baseRec] ≠ [] ∧
    (calculate_monthly_trends [baseRec] ≠ [] ∧
      (∀ r, (calculate_monthly_trends [baseRec])[0]? = some r →
        r.revenue_growth = some 0 ∧ r.revenue_ma3 = r.revenue) ∧
      (∀ r, (calculate_monthly_trends [baseRec])[1]? = some r →
        r.revenue_ma3 = r.revenue)) :=
  ⟨by decide, monthly_first_rows [baseRec] (by decide)⟩


theorem categoryShare_congr (df df' : List Record)
    (hc : completedOf df = completedOf df') :
    categoryShare df = categoryShare df' := by
  funext b
  simp only [categoryShare, categoryTotal, categoryBase]
  rw [hc]

/-!  ## C1 -/

section ConcreteC1

attribute [local semireducible] Rat.add Rat.mul Rat.inv Rat.sub

/-- C1 counterexample: two inputs with the same completed records on
which the KPI view differs (its data_period field reads the order dates
of ALL records), so not every field of the KPI summary depends only on
completed records. -/
theorem kpi_period_uses_all_records :
    completedOf dfOnlyA1 = completedOf dfWithLateCancelled ∧
    calculate_kpis dfOnlyA1 ≠ calculate_kpis dfWithLateCancelled := by
  decide

/-- C1 amended: every view result except the order-status distribution
and the KPI data_period field depends only on the completed records;
the order-status view and data_period do depend on non-completed
records (shown on a concrete pair of inputs). -/
theorem views_depend_only_on_completed_amended :
    (∀ df df' : List Record, completedOf df = completedOf df' →
      calculate_monthly_trends df = calculate_monthly_trends df' ∧
      calculate_category_performance df = calculate_category_performance df' ∧
      calculate_regional_performance df = calculate_regional_performance df' ∧
      calculate_channel_performance df = calculate_channel_performance df' ∧
      calculate_payment_analysis df = calculate_payment_analysis df' ∧
      calculate_day_of_week_analysis df = calculate_day_of_week_analysis df' ∧
      calculate_prime_analysis df = calculate_prime_analysis df' ∧
      calculate_shipping_performance df = calculate_shipping_performance df' ∧
      calculate_top_products df = calculate_top_products df' ∧
      calculate_top_brands df = calculate_top_brands df' ∧
      (∀ k k', calculate_kpis df = some k → calculate_kpis df' = some k' →
        k.total_revenue = k'.total_revenue ∧
        k.total_profit = k'.total_profit ∧
        k.total_orders = k'.total_orders ∧
        k.total_units_sold = k'.total_units_sold ∧
        k.avg_order_value = k'.avg_order_value ∧
        k.profit_margin = k'.profit_margin ∧
        k.unique_customers = k'.unique_customers ∧
        k.prime_member_pct = k'.prime_member_pct ∧
        k.late_delivery_pct = k'.late_delivery_pct ∧
        k.unique_products = k'.unique_products ∧
        k.unique_countries = k'.unique_countries ∧
        k.avg_discount_rate = k'.avg_discount_rate)) ∧
    (completedOf dfOnlyA1 = completedOf dfWithLateCancelled ∧
      calculate_order_status_distribution dfOnlyA1 ≠
        calculate_order_status_distribution dfWithLateCancelled ∧
      (calculate_kpis dfOnlyA1).map (·.data_period) ≠
        (calculate_kpis dfWithLateCancelled).map (·.data_period)) := by
  constructor
  · intro df df' hc
    refine ⟨?_, ?_, ?_, ?_, ?_, ?_, ?_, ?_, ?_, ?_, ?_⟩
    · simp only [calculate_monthly_trends, monthlyBase]; rw [hc]
    · simp only [calculate_category_performance, categorySorted, categoryTotal,
        categoryBase]
      rw [categoryShare_congr df df' hc, hc]
    · simp only [calculate_regional_performance]; rw [hc]
    · simp only [calculate_channel_performance, channelBase]; rw [hc]
    · simp only [calculate_payment_analysis, paymentBase]; rw [hc]
    · simp only [calculate_day_of_week_analysis, dayAvgRevenue, dayBase]; rw [hc]
    · simp only [calculate_prime_analysis]; rw [hc]
    · simp only [calculate_shipping_performance, shippingBase]; rw [hc]
    · simp only [calculate_top_products]; rw [hc]
    · simp only [calculate_top_brands]; rw [hc]
    · intro k k' hk hk'
      simp only [calculate_kpis] at hk hk'
      rcases hmn : dateMin (List.map (fun r => r.orderDate) df) with _ | dmin <;>
        rcases hmx : dateMax (List.map (fun r => r.orderDate) df) with _ | dmax <;>
        rw [hmn, hmx] at hk <;> simp at hk
      rcases hmn' : dateMin (List.map (fun r => r.orderDate) df') with _ | dmin' <;>
        rcases hmx' : dateMax (List.map (fun r => r.orderDate) df') with _ | dmax' <;>
        rw [hmn', hmx'] at hk' <;> simp at hk'
      subst hk
      subst hk'
      refine ⟨?_, ?_, ?_, ?_, ?_, ?_, ?_, ?_, ?_, ?_, ?_, ?_⟩ <;> simp <;> rw [hc]
  · refine ⟨by decide, by decide, by decide⟩

/-- C1 witness: the dependence statement applied to a concrete pair of
inputs sharing the completed subset. -/
theorem views_depend_only_on_completed_amended_witness :
    calculate_monthly_trends dfOnlyA1 = calculate_monthly_trends dfWithLateCancelled ∧
    calculate_category_performance dfOnlyA1 =
      calculate_category_performance dfWithLateCancelled ∧
    calculate_regional_performance dfOnlyA1 =
      calculate_regional_performance dfWithLateCancelled ∧
    calculate_channel_performance dfOnlyA1 =
      calculate_channel_performance dfWithLateCancelled ∧
    calculate_payment_analysis dfOnlyA1 = calculate_payment_analysis dfWithLateCancelled ∧
    calculate_day_of_week_analysis dfOnlyA1 =
      calculate_day_of_week_analysis dfWithLateCancelled ∧
    calculate_prime_analysis dfOnlyA1 = calculate_prime_analysis dfWithLateCancelled ∧
    calculate_shipping_performance dfOnlyA1 =
      calculate_shipping_performance dfWithLateCancelled ∧
    calculate_top_products dfOnlyA1 = calculate_top_products dfWithLateCancelled ∧
    calculate_top_brands dfOnlyA1 = calculate_top_brands dfWithLateCancelled ∧
    (∀ k k', calculate_kpis dfOnlyA1 = some k →
      calculate_kpis dfWithLateCancelled = some k' →
      k.total_revenue = k'.total_revenue ∧
      k.total_profit = k'.total_profit ∧
      k.total_orders = k'.total_orders ∧
      k.total_units_sold = k'.total_units_sold ∧
      k.avg_order_value = k'.avg_order_value ∧
      k.profit_margin = k'.profit_margin ∧
      k.unique_customers = k'.unique_customers ∧
      k.prime_member_pct = k'.prime_member_pct ∧
      k.late_delivery_pct = k'.late_delivery_pct ∧
      k.unique_products = k'.unique_products ∧
      k.unique_countries = k'.unique_countries ∧
      k.avg_discount_rate = k'.avg_discount_rate) :=
  views_depend_only_on_completed_amended.1 dfOnlyA1 dfWithLateCancelled (by decide)

end ConcreteC1


/-!  ## C2 -/

section ConcreteC2

attribute [local semireducible] Rat.add Rat.mul Rat.inv Rat.sub

/-- C2 counterexample: a completed record with revenue 10 and profit
0.004.  The code computes profit_margin from the unrounded sums (0.04),
while the spec formula from the rounded aggregates yields 0. -/
theorem kpi_margin_not_from_rounded :
    (calculate_kpis dfTinyProfit).map (·.profit_margin) = some (some (1/25)) ∧
    kpiProfitMarginSpec dfTinyProfit = some 0 ∧
    (calculate_kpis dfTinyProfit).map (·.profit_margin) ≠
      some (kpiProfitMarginSpec dfTinyProfit) := by
  decide

/-- C2 amended: the grouped views compute their derived ratios from the
already-rounded aggregates (category margins and shares from the rounded
revenue/profit columns, the day-of-week index from the rounded day
revenues), but the KPI profit_margin divides the UNrounded profit and
revenue sums and only rounds the final ratio. -/
theorem ratio_rounding_amended (df : List Record) :
    (∀ k, calculate_kpis df = some k →
      k.profit_margin = (pdiv (sumBy (·.profit) (completedOf df))
        (sumBy (·.revenue) (completedOf df))).map (fun q => round2 (q * 100))) ∧
    (∀ r ∈ calculate_category_performance df,
      r.profit_margin = (pdiv r.profit r.revenue).map (fun q => round2 (q * 100)) ∧
      r.revenue_share = (pdiv r.revenue (categoryTotal df)).map
        (fun q => round2 (q * 100))) ∧
    (∀ r ∈ calculate_day_of_week_analysis df,
      r.index = (dayAvgRevenue df).bind
        (fun a => (pdiv r.revenue a).map (fun q => round2 (q * 100)))) := by
  refine ⟨?_, ?_, ?_⟩
  · intro k hk
    simp only [calculate_kpis] at hk
    rcases hmn : dateMin (List.map (fun r => r.orderDate) df) with _ | dmin <;>
      rcases hmx : dateMax (List.map (fun r => r.orderDate) df) with _ | dmax <;>
      rw [hmn, hmx] at hk <;> simp at hk
    subst hk
    rfl
  · intro r hr
    simp only [calculate_category_performance, List.mem_map] at hr
    obtain ⟨p, hp, rfl⟩ := hr
    exact ⟨rfl, by simp [categoryShare]⟩
  · intro r hr
    simp only [calculate_day_of_week_analysis] at hr
    rw [List.mem_insertionSort] at hr
    rw [List.mem_map] at hr
    obtain ⟨b, hb, rfl⟩ := hr
    rfl

/-- C2 witness: the KPI part of the amended statement, applied on a
concrete input with its hypothesis discharged. -/
theorem ratio_rounding_amended_witness :
    kpiBaseRec.profit_margin = (pdiv (sumBy (·.profit) (completedOf [baseRec]))
      (sumBy (·.revenue) (completedOf [baseRec]))).map (fun q => round2 (q * 100)) :=
  (ratio_rounding_amended [baseRec]).1 kpiBaseRec
    (by decide)

end ConcreteC2


/-!  ## C3 -/

section ConcreteC3

attribute [local semireducible] Rat.add Rat.mul Rat.inv Rat.sub

/-- C3 counterexample: with no completed record, the KPI profit_margin
and avg_order_value are the undefined float marker (NaN, modelled as
`none`), not a defined sentinel such as 0. -/
theorem divzero_yields_nan :
    (calculate_kpis [recCancelOnly]).map (·.profit_margin) = some none ∧
    (calculate_kpis [recCancelOnly]).map (·.avg_order_value) = some none := by
  decide

/-- C3 amended: a zero aggregation denominator propagates an undefined
numeric result (NaN or infinity, modelled `none`) into the affected
output without raising: zero completed revenue makes the KPI
profit_margin undefined, a zero rounded category revenue makes that
category's margin undefined, and a zero cross-day mean makes the
day-of-week index undefined. -/
theorem divzero_amended (df : List Record) :
    (∀ k, calculate_kpis df = some k →
      sumBy (·.revenue) (completedOf df) = 0 → k.profit_margin = none) ∧
    (∀ r ∈ calculate_category_performance df,
      r.revenue = 0 → r.profit_margin = none) ∧
    (∀ r ∈ calculate_day_of_week_analysis df,
      dayAvgRevenue df = some 0 → r.index = none) := by
  refine ⟨?_, ?_, ?_⟩
  · intro k hk hrev
    simp only [calculate_kpis] at hk
    rcases hmn : dateMin (List.map (fun r => r.orderDate) df) with _ | dmin <;>
      rcases hmx : dateMax (List.map (fun r => r.orderDate) df) with _ | dmax <;>
      rw [hmn, hmx] at hk <;> simp at hk
    subst hk
    simp [pdiv, hrev]
  · intro r hr hrev
    simp only [calculate_category_performance, List.mem_map] at hr
    obtain ⟨p, hp, rfl⟩ := hr
    simp only at hrev
    simp [pdiv, hrev]
  · intro r hr havg
    simp only [calculate_day_of_week_analysis] at hr
    rw [List.mem_insertionSort] at hr
    rw [List.mem_map] at hr
    obtain ⟨b, hb, rfl⟩ := hr
    simp only
    rw [havg]
    simp [pdiv]

/-- C3 witness: the amended statement applied on the zero-revenue
completed record, with each hypothesis discharged concretely. -/
theorem divzero_amended_witness :
    kpiZeroRev.profit_margin = none ∧ catRowZero.profit_margin = none ∧
    dayRowZero.index = none :=
  ⟨(divzero_amended [recZeroRev]).1 kpiZeroRev (by decide) (by decide),
   (divzero_amended [recZeroRev]).2.1 catRowZero (by decide) (by decide),
   (divzero_amended [recZeroRev]).2.2 dayRowZero (by decide) (by decide)⟩

end ConcreteC3


theorem monthly_empty (df : List Record) (hc : completedOf df = []) :
    calculate_monthly_trends df = [] := by
  simp [calculate_monthly_trends, monthlyBase, hc, groupsBy]

theorem category_empty (df : List Record) (hc : completedOf df = []) :
    calculate_category_performance df = [] := by
  simp [calculate_category_performance, categorySorted, categoryBase, hc, groupsBy]

theorem day_empty (df : List Record) (hc : completedOf df = []) :
    calculate_day_of_week_analysis df = [] := by
  simp [calculate_day_of_week_analysis, dayBase, hc, groupsBy]

theorem shipping_empty (df : List Record) (hc : completedOf df = []) :
    calculate_shipping_performance df = [] := by
  simp [calculate_shipping_performance, shippingBase, hc, groupsBy]

theorem regional_empty (df : List Record) (hc : completedOf df = []) :
    calculate_regional_performance df = [] := by
  simp [calculate_regional_performance, hc, groupsBy]

theorem channel_empty (df : List Record) (hc : completedOf df = []) :
    calculate_channel_performance df = [] := by
  simp [calculate_channel_performance, channelBase, hc, groupsBy]

theorem payment_empty (df : List Record) (hc : completedOf df = []) :
    calculate_payment_analysis df = [] := by
  simp [calculate_payment_analysis, paymentBase, hc, groupsBy]

theorem prime_empty (df : List Record) (hc : completedOf df = []) :
    calculate_prime_analysis df = [] := by
  simp [calculate_prime_analysis, hc, groupsBy]

theorem products_empty (df : List Record) (hc : completedOf df = []) :
    calculate_top_products df = [] := by
  simp [calculate_top_products, hc, groupsBy]

theorem brands_empty (df : List Record) (hc : completedOf df = []) :
    calculate_top_brands df = [] := by
  simp [calculate_top_brands, hc, groupsBy]

/-!  ## C9 -/

/-- C9 counterexample: the empty record set passes normalization, yet no
document is assembled at all for it: the KPI computation formats the
min/max of an empty date column, which raises, so the run aborts before
the mapping with the view keys exists. -/
theorem empty_input_no_document :
    loadAndClean [] = [] ∧
    dashboardData "2026-10-12T00:00:00" (loadAndClean []) = none :=
  ⟨rfl, rfl⟩

/-- C9 amended: for every NONEMPTY normalized input the assembled
document exists, contains the generated_at key and one key for each of
the 12 views, and each grouped view whose group set is empty (for
example when no record is Completed) is present as the empty sequence
rather than an absent key. -/
theorem document_structure_amended (now : String) (df : List Record) (h : df ≠ []) :
    ∃ doc, dashboardData now df = some doc ∧
      doc.map (fun p => p.1) =
        ["generated_at", "kpis", "monthly_trends", "category_performance",
         "regional_performance", "channel_performance", "payment_analysis",
         "day_of_week", "prime_analysis", "shipping_performance",
         "top_products", "top_brands", "order_status"] ∧
      (completedOf df = [] →
        ("monthly_trends", ViewVal.monthly []) ∈ doc ∧
        ("category_performance", ViewVal.cat []) ∈ doc ∧
        ("regional_performance", ViewVal.regional []) ∈ doc ∧
        ("channel_performance", ViewVal.channel []) ∈ doc ∧
        ("payment_analysis", ViewVal.payment []) ∈ doc ∧
        ("day_of_week", ViewVal.day []) ∈ doc ∧
        ("prime_analysis", ViewVal.prime []) ∈ doc ∧
        ("shipping_performance", ViewVal.shipping []) ∈ doc ∧
        ("top_products", ViewVal.products []) ∈ doc ∧
        ("top_brands", ViewVal.brands []) ∈ doc) := by
  obtain ⟨k, hk⟩ : ∃ k, calculate_kpis df = some k := by
    cases df with
    | nil => exact absurd rfl h
    | cons a t => simp [calculate_kpis, dateMin, dateMax]
  refine ⟨[("generated_at", .str now), ("kpis", .kpi k),
    ("monthly_trends", .monthly (calculate_monthly_trends df)),
    ("category_performance", .cat (calculate_category_performance df)),
    ("regional_performance", .regional (calculate_regional_performance df)),
    ("channel_performance", .channel (calculate_channel_performance df)),
    ("payment_analysis", .payment (calculate_payment_analysis df)),
    ("day_of_week", .day (calculate_day_of_week_analysis df)),
    ("prime_analysis", .prime (calculate_prime_analysis df)),
    ("shipping_performance", .shipping (calculate_shipping_performance df)),
    ("top_products", .products (calculate_top_products df)),
    ("top_brands", .brands (calculate_top_brands df)),
    ("order_status", .status (calculate_order_status_distribution df))], ?_, ?_, ?_⟩
  · simp only [dashboardData, hk, Option.map_some']
  · simp
  · intro hc
    refine ⟨?_, ?_, ?_, ?_, ?_, ?_, ?_, ?_, ?_, ?_⟩ <;>
      simp [monthly_empty df hc, category_empty df hc, regional_empty df hc,
        channel_empty df hc, payment_empty df hc, day_empty df hc,
        prime_empty df hc, shipping_empty df hc, products_empty df hc,
        brands_empty df hc]

/-- C9 witness: the amended statement on a concrete one-record input
with no completed order. -/
theorem document_structure_amended_witness :
    ∃ doc, dashboardData "2026-10-12T00:00:00" [recCancelOnly] = some doc ∧
      doc.map (fun p => p.1) =
        ["generated_at", "kpis", "monthly_trends", "category_performance",
         "regional_performance", "channel_performance", "payment_analysis",
         "day_of_week", "prime_analysis", "shipping_performance",
         "top_products", "top_brands", "order_status"] ∧
      (completedOf [recCancelOnly] = [] →
        ("monthly_trends", ViewVal.monthly []) ∈ doc ∧
        ("category_performance", ViewVal.cat []) ∈ doc ∧
        ("regional_performance", ViewVal.regional []) ∈ doc ∧
        ("channel_performance", ViewVal.channel []) ∈ doc ∧
        ("payment_analysis", ViewVal.payment []) ∈ doc ∧
        ("day_of_week", ViewVal.day []) ∈ doc ∧
        ("prime_analysis", ViewVal.prime []) ∈ doc ∧
        ("shipping_performance", ViewVal.shipping []) ∈ doc ∧
        ("top_products", ViewVal.products []) ∈ doc ∧
        ("top_brands", ViewVal.brands []) ∈ doc) :=
  document_structure_amended "2026-10-12T00:00:00" [recCancelOnly] (by simp)


theorem abs_rhe_sub_le (x : ℚ) : |(rhe x : ℚ) - x| ≤ 1/2 := by
  unfold rhe
  have h1 : ((⌊x⌋ : ℤ) : ℚ) ≤ x := Int.floor_le x
  have h2 : x < (⌊x⌋ : ℤ) + 1 := Int.lt_floor_add_one x
  by_cases hlt : x - (⌊x⌋ : ℤ) < 1/2
  · rw [if_pos hlt, abs_le]
    constructor <;> linarith
  · rw [if_neg hlt]
    by_cases hgt : 1/2 < x - (⌊x⌋ : ℤ)
    · rw [if_pos hgt, abs_le]
      constructor <;> push_cast <;> linarith
    · rw [if_neg hgt]
      have heq : x - (⌊x⌋ : ℤ) = 1/2 := le_antisymm (not_lt.mp hgt) (not_lt.mp hlt)
      by_cases hev : Even ⌊x⌋
      · rw [if_pos hev, abs_le]
        constructor <;> linarith
      · rw [if_neg hev, abs_le]
        constructor <;> push_cast <;> linarith

theorem abs_round2_sub_le (x : ℚ) : |round2 x - x| ≤ 1/200 := by
  have h := abs_rhe_sub_le (x * 100)
  have key : round2 x - x = ((rhe (x * 100) : ℚ) - x * 100) / 100 := by
    unfold round2; ring
  rw [key, abs_div]
  rw [abs_of_pos (by norm_num : (0:ℚ) < 100)]
  linarith

theorem rhe_nonneg_int {x : ℚ} (hx : 0 ≤ x) : 0 ≤ rhe x := by
  have hf : (0 : ℤ) ≤ ⌊x⌋ := Int.floor_nonneg.mpr hx
  unfold rhe
  split_ifs <;> omega

theorem round2_nonneg {x : ℚ} (hx : 0 ≤ x) : 0 ≤ round2 x := by
  unfold round2
  apply div_nonneg _ (by norm_num : (0:ℚ) ≤ 100)
  exact_mod_cast rhe_nonneg_int (mul_nonneg hx (by norm_num : (0:ℚ) ≤ 100))

theorem length_cumsumSkip (a : ℚ) (l : List (Option ℚ)) :
    (cumsumSkip a l).length = l.length := by
  induction l generalizing a with
  | nil => rfl
  | cons h t ih =>
      cases h <;> simp [cumsumSkip, ih]

theorem cumsumSkip_map_some (a : ℚ) (qs : List ℚ) :
    cumsumSkip a (qs.map some) = (runningSums a qs).map some := by
  induction qs generalizing a with
  | nil => rfl
  | cons q t ih => simp [cumsumSkip, runningSums, ih]

theorem chain_runningSums (a : ℚ) (qs : List ℚ) (h : ∀ q ∈ qs, 0 ≤ q) :
    List.Chain' (· ≤ ·) (runningSums a qs) := by
  induction qs generalizing a with
  | nil => simp [runningSums]
  | cons q t ih =>
      cases t with
      | nil => simp [runningSums]
      | cons q' t' =>
          rw [runningSums, runningSums, List.chain'_cons]
          refine ⟨?_, ?_⟩
          · have : 0 ≤ q' := h q' (by simp)
            linarith
          · have hrec := ih (a + q) (fun x hx => h x (List.mem_cons_of_mem _ hx))
            rw [runningSums] at hrec
            exact hrec

theorem sum_map_round2_close (l : List ℚ) :
    |(l.map round2).sum - l.sum| ≤ (l.length : ℚ) * (1/200) := by
  induction l with
  | nil => simp
  | cons q t ih =>
      have hq := abs_round2_sub_le q
      have hsplit : (round2 q + (t.map round2).sum) - (q + t.sum)
          = (round2 q - q) + ((t.map round2).sum - t.sum) := by ring
      simp only [List.map_cons, List.sum_cons, List.length_cons]
      rw [hsplit]
      calc |(round2 q - q) + ((t.map round2).sum - t.sum)|
          ≤ |round2 q - q| + |(t.map round2).sum - t.sum| := abs_add _ _
        _ ≤ 1/200 + (t.length : ℚ) * (1/200) := add_le_add hq ih
        _ = ((t.length : ℚ) + 1) * (1/200) := by ring
        _ = (((t.length + 1 : ℕ)) : ℚ) * (1/200) := by push_cast; ring

theorem map_zip_fst' {α β γ : Type} (f : α → γ) (l₁ : List α) (l₂ : List β)
    (h : l₁.length = l₂.length) :
    (l₁.zip l₂).map (fun p => f p.1) = l₁.map f := by
  induction l₁ generalizing l₂ with
  | nil => simp
  | cons a t ih =>
      cases l₂ with
      | nil => simp at h
      | cons b t₂ =>
          simp only [List.zip_cons_cons, List.map_cons]
          rw [ih t₂ (by simpa using h)]

theorem map_zip_snd' {α β γ : Type} (f : β → γ) (l₁ : List α) (l₂ : List β)
    (h : l₁.length = l₂.length) :
    (l₁.zip l₂).map (fun p => f p.2) = l₂.map f := by
  induction l₁ generalizing l₂ with
  | nil =>
      cases l₂ with
      | nil => simp
      | cons b t₂ => simp at h
  | cons a t ih =>
      cases l₂ with
      | nil => simp at h
      | cons b t₂ =>
          simp only [List.zip_cons_cons, List.map_cons]
          rw [ih t₂ (by simpa using h)]


/-!  ## C7 -/

section ConcreteC7

attribute [local semireducible] Rat.add Rat.mul Rat.inv Rat.sub

/-- C7 counterexample: with a negative-revenue category the cumulative
share column is strictly decreasing in the revenue-descending output,
refuting the claim for arbitrary inputs with a completed record. -/
theorem category_cumshare_not_monotone :
    completedOf dfNegCategory ≠ [] ∧
    ¬ List.Chain' (· ≤ ·)
      ((calculate_category_performance dfNegCategory).map
        (fun r => (r.cumulative_share).getD 0)) := by
  constructor
  · decide
  · intro hch
    have he : (calculate_category_performance dfNegCategory).map
        (fun r => (r.cumulative_share).getD 0) = [200, 100] := by decide
    rw [he] at hch
    have h12 := (List.chain'_cons.mp hch).1
    norm_num at h12

end ConcreteC7

theorem catview_len (df : List Record) :
    (calculate_category_performance df).length = (categorySorted df).length := by
  simp [calculate_category_performance, List.length_zip, length_cumsumSkip]

theorem catview_shares (df : List Record) :
    (calculate_category_performance df).map (fun r => r.revenue_share) =
      (categorySorted df).map (categoryShare df) := by
  simp only [calculate_category_performance, List.map_map]
  have h : (categorySorted df).length
      = (cumsumSkip 0 ((categorySorted df).map (categoryShare df))).length := by
    rw [length_cumsumSkip, List.length_map]
  simpa [Function.comp_def] using
    map_zip_fst' (categoryShare df) (categorySorted df)
      (cumsumSkip 0 ((categorySorted df).map (categoryShare df))) h

theorem catview_cums (df : List Record) :
    (calculate_category_performance df).map (fun r => r.cumulative_share) =
      cumsumSkip 0 ((categorySorted df).map (categoryShare df)) := by
  simp only [calculate_category_performance, List.map_map]
  have h : (categorySorted df).length
      = (cumsumSkip 0 ((categorySorted df).map (categoryShare df))).length := by
    rw [length_cumsumSkip, List.length_map]
  simpa [Function.comp_def] using
    map_zip_snd' (fun o : Option ℚ => o) (categorySorted df)
      (cumsumSkip 0 ((categorySorted df).map (categoryShare df))) h

/-- C7 amended: when every rounded category revenue is nonnegative and
their total is positive, the revenue_share values sum to 100 up to one
half-cent of rounding per row, every share and cumulative share is
defined, the cumulative share column is non-decreasing in the
revenue-descending output, and a row is a Top Performer exactly when its
cumulative share is at most 80. -/
theorem category_shares_amended (df : List Record)
    (h1 : ∀ b ∈ categoryBase df, 0 ≤ b.revenue)
    (h2 : 0 < categoryTotal df) :
    |((calculate_category_performance df).map
        (fun r => (r.revenue_share).getD 0)).sum - 100|
      ≤ ((calculate_category_performance df).length : ℚ) * (1/200) ∧
    (∀ r ∈ calculate_category_performance df,
      (r.revenue_share).isSome ∧ (r.cumulative_share).isSome) ∧
    List.Chain' (· ≤ ·)
      ((calculate_category_performance df).map
        (fun r => (r.cumulative_share).getD 0)) ∧
    (∀ r ∈ calculate_category_performance df,
      (r.pareto_class = "Top Performer" ↔ (r.cumulative_share).getD 0 ≤ 80)) := by
  have hTne : categoryTotal df ≠ 0 := ne_of_gt h2
  have hshare : ∀ b, categoryShare df b
      = some (round2 (b.revenue / categoryTotal df * 100)) := by
    intro b
    simp [categoryShare, pdiv, hTne]
  have hmap : (categorySorted df).map (categoryShare df)
      = ((categorySorted df).map
          (fun b => round2 (b.revenue / categoryTotal df * 100))).map some := by
    rw [List.map_map]
    exact List.map_congr_left (fun b _ => hshare b)
  have hqs_nonneg : ∀ q ∈ (categorySorted df).map
      (fun b => round2 (b.revenue / categoryTotal df * 100)), 0 ≤ q := by
    intro q hq
    rw [List.mem_map] at hq
    obtain ⟨b, hb, rfl⟩ := hq
    have hbb : b ∈ categoryBase df := by
      have hmm := List.mem_insertionSort
        (r := revDescOrd (fun c : CBase => c.revenue))
        (l := categoryBase df) (x := b)
      exact hmm.mp hb
    have hr0 : 0 ≤ b.revenue := h1 b hbb
    have hnn : 0 ≤ b.revenue / categoryTotal df * 100 := by positivity
    exact round2_nonneg hnn
  have hA : (calculate_category_performance df).map
      (fun r => (r.revenue_share).getD 0)
      = (categorySorted df).map
          (fun b => round2 (b.revenue / categoryTotal df * 100)) := by
    have e1 : (calculate_category_performance df).map
        (fun r => (r.revenue_share).getD 0)
        = ((calculate_category_performance df).map
            (fun r => r.revenue_share)).map (fun o => o.getD 0) := by
      rw [List.map_map]; rfl
    rw [e1, catview_shares, hmap, List.map_map]
    simp [Function.comp_def]
  have hC : (calculate_category_performance df).map
      (fun r => (r.cumulative_share).getD 0)
      = runningSums 0 ((categorySorted df).map
          (fun b => round2 (b.revenue / categoryTotal df * 100))) := by
    have e1 : (calculate_category_performance df).map
        (fun r => (r.cumulative_share).getD 0)
        = ((calculate_category_performance df).map
            (fun r => r.cumulative_share)).map (fun o => o.getD 0) := by
      rw [List.map_map]; rfl
    rw [e1, catview_cums, hmap, cumsumSkip_map_some, List.map_map]
    simp [Function.comp_def]
  refine ⟨?_, ?_, ?_, ?_⟩
  · rw [hA]
    have hts : ((categorySorted df).map
        (fun b => b.revenue / categoryTotal df * 100)).sum = 100 := by
      have e2 : (categorySorted df).map
          (fun b => b.revenue / categoryTotal df * 100)
          = (categorySorted df).map
              (fun b => b.revenue * (100 / categoryTotal df)) :=
        List.map_congr_left (fun b _ => by ring)
      rw [e2, List.sum_map_mul_right]
      have hperm : ((categorySorted df).map (fun b => b.revenue)).sum
          = ((categoryBase df).map (fun b => b.revenue)).sum :=
        ((List.perm_insertionSort _ _).map _).sum_eq
      rw [hperm]
      have htt : ((categoryBase df).map (fun b => b.revenue)).sum
          = categoryTotal df := rfl
      rw [htt]
      field_simp
    have e3 : (categorySorted df).map
        (fun b => round2 (b.revenue / categoryTotal df * 100))
        = ((categorySorted df).map
            (fun b => b.revenue / categoryTotal df * 100)).map round2 := by
      rw [List.map_map]
      rfl
    rw [e3]
    have hbnd := sum_map_round2_close
      ((categorySorted df).map (fun b => b.revenue / categoryTotal df * 100))
    rw [hts, List.length_map] at hbnd
    rw [catview_len df]
    exact hbnd
  · intro r hr
    constructor
    · have hs : r.revenue_share ∈ (calculate_category_performance df).map
          (fun r => r.revenue_share) := List.mem_map_of_mem _ hr
      rw [catview_shares, hmap] at hs
      rw [List.mem_map] at hs
      obtain ⟨q, _, hq⟩ := hs
      rw [← hq]; rfl
    · have hs : r.cumulative_share ∈ (calculate_category_performance df).map
          (fun r => r.cumulative_share) := List.mem_map_of_mem _ hr
      rw [catview_cums, hmap, cumsumSkip_map_some] at hs
      rw [List.mem_map] at hs
      obtain ⟨q, _, hq⟩ := hs
      rw [← hq]; rfl
  · rw [hC]
    exact chain_runningSums 0 _ hqs_nonneg
  · intro r hr
    simp only [calculate_category_performance, List.mem_map] at hr
    obtain ⟨p, hp, rfl⟩ := hr
    obtain ⟨p1, p2⟩ := p
    have hmem : p2 ∈ cumsumSkip 0 ((categorySorted df).map (categoryShare df)) :=
      (List.of_mem_zip hp).2
    rw [hmap, cumsumSkip_map_some] at hmem
    rw [List.mem_map] at hmem
    obtain ⟨x, _, hx⟩ := hmem
    show paretoClass p2 = "Top Performer" ↔ p2.getD 0 ≤ 80
    rw [← hx]
    by_cases hx80 : x ≤ 80
    · simp [paretoClass, hx80]
    · simp [paretoClass, hx80]

section ConcreteC7W

attribute [local semireducible] Rat.add Rat.mul Rat.inv Rat.sub


/-- C7 witness: the amended statement on two concrete categories with
revenues 60 and 40, hypotheses discharged by evaluation. -/
theorem category_shares_amended_witness :
    |((calculate_category_performance dfTwoCategories).map
        (fun r => (r.revenue_share).getD 0)).sum - 100|
      ≤ ((calculate_category_performance dfTwoCategories).length : ℚ) * (1/200) ∧
    (∀ r ∈ calculate_category_performance dfTwoCategories,
      (r.revenue_share).isSome ∧ (r.cumulative_share).isSome) ∧
    List.Chain' (· ≤ ·)
      ((calculate_category_performance dfTwoCategories).map
        (fun r => (r.cumulative_share).getD 0)) ∧
    (∀ r ∈ calculate_category_performance dfTwoCategories,
      (r.pareto_class = "Top Performer" ↔ (r.cumulative_share).getD 0 ≤ 80)) := by
  have h1 : ∀ b ∈ categoryBase dfTwoCategories, 0 ≤ b.revenue := by decide
  have h2 : 0 < categoryTotal dfTwoCategories := by decide
  exact category_shares_amended dfTwoCategories h1 h2

end ConcreteC7W

end AmazonSales
